import Mathlib

/-!
Verification development for the blastocyst-grading application (`src/app.py`).

The grading core is a family of pure functions of three integer grades
`(icm, te, exp)`: `get_inference` (per-parameter notes, overall summary and
quality level), `get_clinical_recommendations` (ordered recommendation text),
`calculate_success_metrics` (weighted success probability and derived metric
strings), the JSON export object built for the download button, and the textual
content of the generated PDF report.  Python integers are modelled by `ℤ`, the
float arithmetic of the probability/average formulas by `ℚ` (every literal and
operand in those formulas is an exact decimal at this scale), Python strings by
`String`, and Python's `str.replace`/`str.startswith` by explicit character-list
functions with the same semantics.
-/

namespace Blastocyst

/-! ### Models of the Python string primitives used by the report code -/

/-- One pass of Python's `str.replace` on character lists: scan left to right,
replacing each non-overlapping occurrence of `pat` by `rep`.  The `fuel`
argument only bounds the recursion; `s.length` steps always suffice for a
non-empty pattern, which is the only way the source uses `replace`. -/
def replaceCharsAux (rep pat : List Char) : Nat → List Char → List Char
  | 0, s => s
  | fuel + 1, s =>
    match s with
    | [] => []
    | c :: rest =>
      if pat.isPrefixOf s then rep ++ replaceCharsAux rep pat fuel (s.drop pat.length)
      else c :: replaceCharsAux rep pat fuel rest

/-- Model of Python's `s.replace(pat, rep)` (all occurrences, left to right,
non-overlapping). -/
def py_replace (s pat rep : String) : String :=
  String.mk (replaceCharsAux rep.data pat.data s.data.length s.data)

/-- Model of Python's `s.startswith(pat)`. -/
def py_startsWith (s pat : String) : Bool :=
  pat.data.isPrefixOf s.data

/-! ### The grading core (`src/app.py`) -/

/-- Embedding of `get_inference` (src/app.py lines 35-73): three per-parameter
notes, an overall summary and a quality level, returned as
`(summary, notes, quality_level)`.  The source performs no range validation. -/
def get_inference (icm te exp : ℤ) : String × List String × String :=
  let icmNote : String :=
    if 4 ≤ icm then "🟢 **ICM:** Good inner cell mass – likely healthy embryoblast."
    else if icm = 3 then "🟡 **ICM:** Moderate ICM – acceptable but not ideal."
    else "🔴 **ICM:** Poor ICM – lower likelihood of successful implantation."
  let teNote : String :=
    if 4 ≤ te then "🟢 **TE:** Strong trophectoderm – better implantation probability."
    else if te = 3 then "🟡 **TE:** Average TE – may still be viable."
    else "🔴 **TE:** Weak TE – may reduce implantation chances."
  let expNote : String :=
    if 4 ≤ exp then "🟢 **Expansion:** Well-expanded blastocyst – good development."
    else if exp = 3 then "🟡 **Expansion:** Moderate expansion – monitor carefully."
    else "🔴 **Expansion:** Poor expansion – embryo may be underdeveloped."
  let notes := [icmNote, teNote, expNote]
  if 4 ≤ icm ∧ 4 ≤ te ∧ 4 ≤ exp then
    ("✅ **Overall:** High-quality blastocyst – strong transfer candidate.", notes, "Excellent")
  else if 3 ≤ icm ∧ 3 ≤ te ∧ 3 ≤ exp then
    ("⚠️ **Overall:** Medium-quality embryo – possible, but requires clinical judgement.",
      notes, "Moderate")
  else
    ("❌ **Overall:** Low-quality blastocyst – poor prognosis.", notes, "Poor")

/-- `avg_score = (icm + te + exp) / 3` (src/app.py lines 79, 134, 598). -/
def avg_score (icm te exp : ℤ) : ℚ := ((icm : ℚ) + (te : ℚ) + (exp : ℚ)) / 3

/-- The four lines of the overall "Transfer Recommendations" strategy emitted
when `avg_score >= 4` (src/app.py lines 84-87). -/
def priority_block : List String :=
  ["- **Priority Candidate:** This embryo shows excellent quality indicators",
   "- **Transfer Strategy:** Suitable for single embryo transfer (SET)",
   "- **Success Rate:** High probability of successful implantation (60-70%)",
   "- **Timing:** Optimal for fresh transfer or vitrification"]

/-- The strategy lines for `avg_score >= 3` (src/app.py lines 89-92). -/
def viable_block : List String :=
  ["- **Viable Candidate:** This embryo shows moderate quality",
   "- **Transfer Strategy:** Consider patient age and history",
   "- **Success Rate:** Moderate probability of implantation (40-50%)",
   "- **Timing:** May benefit from extended culture monitoring"]

/-- The strategy lines for the remaining triples (src/app.py lines 94-97). -/
def limited_block : List String :=
  ["- **Limited Viability:** This embryo shows lower quality indicators",
   "- **Transfer Strategy:** Discuss alternatives with patient",
   "- **Success Rate:** Lower probability of implantation (<30%)",
   "- **Timing:** Consider extended culture to Day 6"]

/-- The overall strategy selection of `get_clinical_recommendations`
(src/app.py lines 83-97), keyed by `avg_score`. -/
def transfer_strategy (icm te exp : ℤ) : List String :=
  if 4 ≤ avg_score icm te exp then priority_block
  else if 3 ≤ avg_score icm te exp then viable_block
  else limited_block

/-- The ICM parameter-concern block, emitted when `icm < 3`
(src/app.py lines 102-106). -/
def icm_concern_block : List String :=
  ["**ICM Concerns:**",
   "- Review culture media composition and oxygen levels",
   "- Consider growth factor supplementation",
   "- Evaluate oocyte quality in future cycles"]

/-- The TE parameter-concern block, emitted when `te < 3`
(src/app.py lines 108-113). -/
def te_concern_block : List String :=
  ["**TE Concerns:**",
   "- Potential implantation challenges expected",
   "- Consider assisted hatching if transfer proceeds",
   "- Optimize luteal phase progesterone support",
   "- Monitor endometrial receptivity carefully"]

/-- The Expansion parameter-concern block, emitted when `exp < 3`
(src/app.py lines 115-119). -/
def exp_concern_block : List String :=
  ["**Expansion Concerns:**",
   "- Embryo may benefit from additional 12-24 hours culture",
   "- Assess zona pellucida thickness",
   "- Consider delayed transfer protocol"]

/-- The fixed follow-up actions block, emitted for every triple
(src/app.py lines 122-127). -/
def follow_up_block : List String :=
  ["\n### 📋 Follow-Up Actions",
   "- Schedule detailed consultation with reproductive endocrinologist",
   "- Document findings in comprehensive medical record",
   "- Discuss realistic expectations with patient",
   "- Plan for potential additional cycles if needed",
   "- Consider PGT-A testing for future embryos if indicated"]

/-- Embedding of `get_clinical_recommendations` (src/app.py lines 76-129):
the ordered list of recommendation strings, appended exactly as the source
builds its `recommendations` list. -/
def get_clinical_recommendations (icm te exp : ℤ) : List String :=
  ["### 🎯 Transfer Recommendations"]
  ++ transfer_strategy icm te exp
  ++ ["\n### 🔬 Parameter-Specific Guidance"]
  ++ (if icm < 3 then icm_concern_block else [])
  ++ (if te < 3 then te_concern_block else [])
  ++ (if exp < 3 then exp_concern_block else [])
  ++ follow_up_block

/-- The implantation-probability computation of `calculate_success_metrics`
(src/app.py lines 137-145): weighted base scaled to a percentage, then the two
bonus adjustments in source order, then the cap at 95. -/
def success_probability (icm te exp : ℤ) : ℚ :=
  let base_prob : ℚ := ((icm : ℚ) * 0.35 + (te : ℚ) * 0.40 + (exp : ℚ) * 0.25) / 5 * 100
  let base_prob := if 4 ≤ icm ∧ 4 ≤ te then base_prob + 10 else base_prob
  let base_prob := if exp = 5 then base_prob + 5 else base_prob
  min base_prob 95

/-- Model of Python's fixed-point formatting `f"x:.df"` for the nonnegative
values this application formats: round half to even at `d` decimal places and
render integer part, decimal point and a zero-padded fractional part.  (The
application only ever formats exact one- or two-digit decimals and thirds, so
no tie and no binary-float artefact is reachable at these inputs.) -/
def fmtFixed (d : Nat) (x : ℚ) : String :=
  let p : ℤ := ((10 ^ d : ℕ) : ℤ)
  let a := x.num * p
  let b : ℤ := ((x.den : ℕ) : ℤ)
  let q := a.ediv b
  let r := a.emod b
  let m := if 2 * r < b then q else if b < 2 * r then q + 1
           else if q.emod 2 = 0 then q else q + 1
  let ip := m.ediv p
  let fp := (m.emod p).toNat
  let fpStr := toString fp
  let pad := String.mk (List.replicate (d - fpStr.length) '0')
  toString ip ++ "." ++ pad ++ fpStr

/-- The dictionary returned by `calculate_success_metrics`
(src/app.py lines 158-163). -/
structure SuccessMetrics where
  success_probability : String
  quality_score : String
  development_stage : String
  transfer_priority : String
deriving DecidableEq

/-- Embedding of `calculate_success_metrics` (src/app.py lines 132-163). -/
def calculate_success_metrics (icm te exp : ℤ) : SuccessMetrics :=
  { success_probability := fmtFixed 1 (success_probability icm te exp) ++ "%"
    quality_score := fmtFixed 2 (avg_score icm te exp) ++ "/5.00"
    development_stage :=
      if 4 ≤ exp then "Advanced Development"
      else if exp = 3 then "Standard Development"
      else "Early Development"
    transfer_priority :=
      if 4 ≤ avg_score icm te exp then "High"
      else if 3 ≤ avg_score icm te exp then "Medium"
      else "Low" }

/-! ### The JSON export (src/app.py lines 718-730) -/

/-- JSON values, restricted to the shapes the export uses. -/
inductive JVal where
  | jnum (q : ℚ)
  | jstr (s : String)
  | jobj (fields : List (String × JVal))

/-- Object field access, as a parser of the export would perform it. -/
def JVal.get? (v : JVal) (key : String) : Option JVal :=
  match v with
  | .jobj fields =>
    match fields.find? (fun kv => decide (kv.1 = key)) with
    | some kv => some kv.2
    | none => none
  | _ => none

mutual

/-- All string values occurring in a JSON value, in field order. -/
def JVal.stringLeaves : JVal → List String
  | .jnum _ => []
  | .jstr s => [s]
  | .jobj fields => JVal.stringLeavesList fields

/-- String values of a field list, in order. -/
def JVal.stringLeavesList : List (String × JVal) → List String
  | [] => []
  | kv :: rest => kv.2.stringLeaves ++ JVal.stringLeavesList rest

end

/-- Embedding of the `json_data` object built for the JSON download
(src/app.py lines 718-730): timestamp, patient data, the `results` object
with the three grades, the average and the quality level, and the metrics
dictionary. -/
def json_data (icm te exp : ℤ) (ts : String) (patient_data : List (String × String)) : JVal :=
  let metrics := calculate_success_metrics icm te exp
  .jobj
    [("timestamp", .jstr ts),
     ("patient_data", .jobj (patient_data.map (fun p => (p.1, .jstr p.2)))),
     ("results", .jobj
       [("icm", .jnum (icm : ℚ)),
        ("te", .jnum (te : ℚ)),
        ("exp", .jnum (exp : ℚ)),
        ("average_score", .jnum (avg_score icm te exp)),
        ("quality_level", .jstr (get_inference icm te exp).2.2)]),
     ("metrics", .jobj
       [("success_probability", .jstr metrics.success_probability),
        ("quality_score", .jstr metrics.quality_score),
        ("development_stage", .jstr metrics.development_stage),
        ("transfer_priority", .jstr metrics.transfer_priority)])]

/-! ### Textual content of the PDF report (src/app.py lines 166-371)

The PDF is modelled by the ordered list of paragraph and table-cell strings the
source feeds to the document builder; layout, styles, spacers and the optional
image are presentation only and carry no text. -/

/-- Star rating cell `'⭐' * g + '☆' * (5-g)` (src/app.py lines 248-250);
Python's string repetition clamps negative counts to zero, as `Int.toNat`
does. -/
def star_row (g : ℤ) : String :=
  String.mk (List.replicate g.toNat '⭐' ++ List.replicate (5 - g).toNat '☆')

/-- The summary cleaning of src/app.py line 295. -/
def clean_summary (s : String) : String :=
  py_replace (py_replace (py_replace (py_replace s "**" "") "✅" "") "⚠️" "") "❌" ""

/-- The per-note cleaning of src/app.py line 300. -/
def clean_note (s : String) : String :=
  py_replace (py_replace (py_replace (py_replace (py_replace s "**" "<b>")
    "</b>" "</b>") "🟢" "✓ ") "🟡" "⚠ ") "🔴" "✗ "

/-- The transformation applied to each recommendation line before it is placed
in the PDF (src/app.py lines 309-317): headers lose the markdown marker and
emoji; other lines get their `**` markers replaced. -/
def pdfRecPara (rec : String) : String :=
  if py_startsWith rec "###" then
    py_replace (py_replace (py_replace (py_replace rec "### " "") "🎯" "") "🔬" "") "📋" ""
  else py_replace (py_replace rec "**" "<b>") "**" "</b>"

/-- The grading-criteria reference text (src/app.py lines 324-345),
whitespace-normalised. -/
def criteria_text : String :=
  "<b>Inner Cell Mass (ICM) Grading Scale:</b><br/>" ++
  "• Grade 5: Many cells, tightly packed (Excellent)<br/>" ++
  "• Grade 4: Several cells, loosely grouped (Very Good)<br/>" ++
  "• Grade 3: Few cells (Good)<br/>" ++
  "• Grade 2: Very few cells (Fair)<br/>" ++
  "• Grade 1: Poor, degenerating cells (Poor)<br/><br/>" ++
  "<b>Trophectoderm (TE) Grading Scale:</b><br/>" ++
  "• Grade 5: Many cells forming cohesive epithelium (Excellent)<br/>" ++
  "• Grade 4: Several cells forming loose epithelium (Very Good)<br/>" ++
  "• Grade 3: Few cells (Good)<br/>" ++
  "• Grade 2: Very few cells (Fair)<br/>" ++
  "• Grade 1: Poor, few large cells (Poor)<br/><br/>" ++
  "<b>Expansion (EXP) Grading Scale:</b><br/>" ++
  "• Grade 5: Hatching or fully hatched blastocyst (Excellent)<br/>" ++
  "• Grade 4: Expanded blastocyst, thin zona pellucida (Very Good)<br/>" ++
  "• Grade 3: Full blastocyst, thick zona pellucida (Good)<br/>" ++
  "• Grade 2: Early blastocyst, small blastocoel cavity (Fair)<br/>" ++
  "• Grade 1: Early blastocyst, barely visible cavity (Poor)"

/-- The medical disclaimer text (src/app.py lines 351-358),
whitespace-normalised. -/
def disclaimer_text : String :=
  "This report is generated by an AI-assisted embryo grading system designed to support " ++
  "clinical decision-making. All results must be reviewed and validated by qualified " ++
  "embryologists and reproductive medicine specialists. Clinical decisions should be made " ++
  "based on comprehensive patient evaluation, medical history, and professional medical " ++
  "judgment. This report should not be used as the sole basis for treatment decisions. " ++
  "The success probabilities presented are estimates based on general statistical data " ++
  "and may not reflect individual patient outcomes."

/-- Embedding of the textual content of `generate_pdf_report`
(src/app.py lines 166-371), in document order.  `ts` and `rid` are the two
`datetime.now()` strings the source interpolates (report timestamp, lines
212-213 and 364, and report ID, line 214); they are parameters of the model
because they are read from the clock at call time. -/
def pdf_story (icm te exp : ℤ) (patient_data : List (String × String))
    (ts rid : String) : List String :=
  let metrics := calculate_success_metrics icm te exp
  let inf := get_inference icm te exp
  let recommendations := get_clinical_recommendations icm te exp
  "🧬 BLASTOCYST GRADING REPORT" ::
  "AI-Powered Embryo Quality Assessment" ::
  ("<b>Report Generated:</b> " ++ ts) ::
  ("<b>Report ID:</b> " ++ rid) ::
  "<b>System Version:</b> v2.0" ::
  "PATIENT & EMBRYO INFORMATION" ::
  ((patient_data.filter (fun p => decide (p.2 ≠ ""))).flatMap (fun p => [p.1, p.2])
  ++ "GRADING RESULTS" ::
    ["Parameter", "Grade", "Assessment",
     "Inner Cell Mass (ICM)", toString icm ++ "/5", star_row icm,
     "Trophectoderm (TE)", toString te ++ "/5", star_row te,
     "Expansion Grade (EXP)", toString exp ++ "/5", star_row exp]
  ++ ["Metric", "Value",
      "Quality Score", metrics.quality_score,
      "Success Probability", metrics.success_probability,
      "Development Stage", metrics.development_stage,
      "Transfer Priority", metrics.transfer_priority]
  ++ "CLINICAL ANALYSIS" ::
     ("<b>Overall Assessment:</b> " ++ clean_summary inf.1) ::
     inf.2.1.map clean_note
  ++ "CLINICAL RECOMMENDATIONS" ::
     recommendations.map pdfRecPara
  ++ ["GRADING CRITERIA REFERENCE", criteria_text,
      "MEDICAL DISCLAIMER", disclaimer_text,
      "<i>Report generated by Blastocyst Grading System v2.0 | " ++ ts ++ "</i>"])

/-! ### Extraction of recommendation statements from an export -/

/-- The recommendation statements of a triple that occur in a payload of
strings: models "the set of distinct recommendation statements extractable
from" an export of that triple. -/
def extracted_rec_statements (icm te exp : ℤ) (payload : List String) : List String :=
  (get_clinical_recommendations icm te exp).filter (fun r => decide (r ∈ payload))

/-- Recommendation statements extractable from the JSON export. -/
def json_rec_statements (icm te exp : ℤ) (ts : String)
    (patient_data : List (String × String)) : List String :=
  extracted_rec_statements icm te exp (json_data icm te exp ts patient_data).stringLeaves

/-- Recommendation statements extractable from the PDF export. -/
def pdf_rec_statements (icm te exp : ℤ) (patient_data : List (String × String))
    (ts rid : String) : List String :=
  extracted_rec_statements icm te exp (pdf_story icm te exp patient_data ts rid)

/-! ### Bridging lemmas

The Batteries rational arithmetic (`Rat.add`, `Rat.mul`, ...) is
`@[irreducible]`, so facts that are settled by evaluating the grading functions
on concrete grades are first rewritten, by the symbolic lemmas below, into
forms built from integers and `mkRat`, which the kernel evaluates. -/

/-- Integer form of `success_probability`:
`(icm*0.35 + te*0.40 + exp*0.25) / 5 * 100 = 7*icm + 8*te + 5*exp` exactly. -/
def sp_int (icm te exp : ℤ) : ℤ :=
  min (7 * icm + 8 * te + 5 * exp
    + (if 4 ≤ icm ∧ 4 ≤ te then 10 else 0)
    + (if exp = 5 then 5 else 0)) 95

theorem success_probability_eq_int (icm te exp : ℤ) :
    success_probability icm te exp = ((sp_int icm te exp : ℤ) : ℚ) := by
  simp only [success_probability, sp_int]
  split_ifs <;> push_cast <;> congr 1 <;> ring

theorem avg_score_eq_mkRat (icm te exp : ℤ) :
    avg_score icm te exp = mkRat (icm + te + exp) 3 := by
  rw [Rat.mkRat_eq_div, avg_score]
  push_cast
  ring

theorem four_le_avg_iff (icm te exp : ℤ) :
    4 ≤ avg_score icm te exp ↔ 12 ≤ icm + te + exp := by
  rw [avg_score, le_div_iff₀ (by norm_num : (0:ℚ) < 3),
    show (4:ℚ) * 3 = ((12:ℤ) : ℚ) by norm_num,
    show ((icm:ℚ) + (te:ℚ) + (exp:ℚ)) = ((icm + te + exp : ℤ) : ℚ) by push_cast; ring]
  exact Int.cast_le

theorem three_le_avg_iff (icm te exp : ℤ) :
    3 ≤ avg_score icm te exp ↔ 9 ≤ icm + te + exp := by
  rw [avg_score, le_div_iff₀ (by norm_num : (0:ℚ) < 3),
    show (3:ℚ) * 3 = ((9:ℤ) : ℚ) by norm_num,
    show ((icm:ℚ) + (te:ℚ) + (exp:ℚ)) = ((icm + te + exp : ℤ) : ℚ) by push_cast; ring]
  exact Int.cast_le

theorem transfer_strategy_eq (icm te exp : ℤ) :
    transfer_strategy icm te exp =
      if 12 ≤ icm + te + exp then priority_block
      else if 9 ≤ icm + te + exp then viable_block
      else limited_block := by
  simp only [transfer_strategy, four_le_avg_iff, three_le_avg_iff]

theorem get_clinical_recommendations_eq (icm te exp : ℤ) :
    get_clinical_recommendations icm te exp =
      ["### 🎯 Transfer Recommendations"]
      ++ (if 12 ≤ icm + te + exp then priority_block
          else if 9 ≤ icm + te + exp then viable_block
          else limited_block)
      ++ ["\n### 🔬 Parameter-Specific Guidance"]
      ++ (if icm < 3 then icm_concern_block else [])
      ++ (if te < 3 then te_concern_block else [])
      ++ (if exp < 3 then exp_concern_block else [])
      ++ follow_up_block := by
  simp only [get_clinical_recommendations, transfer_strategy_eq]

theorem calculate_success_metrics_eq (icm te exp : ℤ) :
    calculate_success_metrics icm te exp =
      { success_probability := fmtFixed 1 ((sp_int icm te exp : ℤ) : ℚ) ++ "%"
        quality_score := fmtFixed 2 (mkRat (icm + te + exp) 3) ++ "/5.00"
        development_stage :=
          if 4 ≤ exp then "Advanced Development"
          else if exp = 3 then "Standard Development"
          else "Early Development"
        transfer_priority :=
          if 12 ≤ icm + te + exp then "High"
          else if 9 ≤ icm + te + exp then "Medium"
          else "Low" } := by
  simp only [calculate_success_metrics, success_probability_eq_int,
    four_le_avg_iff, three_le_avg_iff]
  simp only [avg_score_eq_mkRat]

/-! ### Claim C1 -/

/-- C1: over the domain `[1,5]^3`, `get_inference`'s quality level is
`Excellent` iff all three grades are ≥ 4, `Moderate` iff all three are ≥ 3 but
not all ≥ 4, and `Poor` otherwise; the three conditions partition the
125-element domain totally and mutually exclusively. -/
theorem c1_band_partition :
    ∀ icm ∈ Finset.Icc (1:ℤ) 5, ∀ te ∈ Finset.Icc (1:ℤ) 5, ∀ exp ∈ Finset.Icc (1:ℤ) 5,
      ((get_inference icm te exp).2.2 = "Excellent" ↔ (4 ≤ icm ∧ 4 ≤ te ∧ 4 ≤ exp)) ∧
      ((get_inference icm te exp).2.2 = "Moderate" ↔
        ((3 ≤ icm ∧ 3 ≤ te ∧ 3 ≤ exp) ∧ ¬(4 ≤ icm ∧ 4 ≤ te ∧ 4 ≤ exp))) ∧
      ((get_inference icm te exp).2.2 = "Poor" ↔ ¬(3 ≤ icm ∧ 3 ≤ te ∧ 3 ≤ exp)) := by
  decide

/-- Witness for C1 at the concrete triple (4, 4, 4). -/
theorem c1_band_partition_witness : (get_inference 4 4 4).2.2 = "Excellent" :=
  ((c1_band_partition 4 (by decide) 4 (by decide) 4 (by decide)).1).mpr (by decide)

/-! ### Claim C2 (corrected: the code performs no validation at all) -/

/-- C2 counterexample: at the out-of-range triple (6, 1, 1) the code does not
fail — `get_inference` and `calculate_success_metrics` run the full derived
computation and return ordinary results; no `InvalidGradeError` exists in the
source. -/
theorem c2_counterexample :
    get_inference 6 1 1 =
      ("❌ **Overall:** Low-quality blastocyst – poor prognosis.",
       ["🟢 **ICM:** Good inner cell mass – likely healthy embryoblast.",
        "🔴 **TE:** Weak TE – may reduce implantation chances.",
        "🔴 **Expansion:** Poor expansion – embryo may be underdeveloped."],
       "Poor") ∧
    calculate_success_metrics 6 1 1 =
      { success_probability := "55.0%", quality_score := "2.67/5.00",
        development_stage := "Early Development", transfer_priority := "Low" } := by
  refine ⟨by decide, ?_⟩
  rw [calculate_success_metrics_eq]
  decide

/-- C2 amended: for every triple with some grade outside `[1,5]` the core
operations do not raise anything — they return normally, producing a quality
level and metric values of the ordinary shape via the same threshold
comparisons. -/
theorem c2_no_validation (icm te exp : ℤ)
    (_h : icm < 1 ∨ 5 < icm ∨ te < 1 ∨ 5 < te ∨ exp < 1 ∨ 5 < exp) :
    (get_inference icm te exp).2.2 ∈ (["Excellent", "Moderate", "Poor"] : List String) ∧
    (calculate_success_metrics icm te exp).development_stage ∈
      (["Advanced Development", "Standard Development", "Early Development"] : List String) := by
  constructor
  · simp only [get_inference]
    split_ifs <;> simp
  · simp only [calculate_success_metrics]
    split_ifs <;> simp

/-- Witness for C2 (amended) at the concrete out-of-range triple (6, 1, 1). -/
theorem c2_no_validation_witness :
    (get_inference 6 1 1).2.2 ∈ (["Excellent", "Moderate", "Poor"] : List String) :=
  (c2_no_validation 6 1 1 (by decide)).1

/-! ### Claim C3 -/

/-- The composite-probability formula exactly as the specification words it:
weighted sum scaled to a percentage, then (after the base scaling) a bonus of
10 when `icm ≥ 4` and `te ≥ 4` simultaneously and a bonus of 5 when
`exp == 5`, finally clamped to the ceiling 95. -/
def spec_success_probability (icm te exp : ℤ) : ℚ :=
  min (((icm : ℚ) * 0.35 + (te : ℚ) * 0.40 + (exp : ℚ) * 0.25) / 5 * 100
    + (if 4 ≤ icm ∧ 4 ≤ te then 10 else 0)
    + (if exp = 5 then 5 else 0)) 95

/-- C3: over `[1,5]^3` the code's success probability agrees with the
specification's formula. -/
theorem c3_success_probability_formula :
    ∀ icm ∈ Finset.Icc (1:ℤ) 5, ∀ te ∈ Finset.Icc (1:ℤ) 5, ∀ exp ∈ Finset.Icc (1:ℤ) 5,
      success_probability icm te exp = spec_success_probability icm te exp := by
  intro icm _ te _ exp _
  simp only [success_probability, spec_success_probability]
  split_ifs <;> congr 1 <;> ring

/-- Witness for C3 at the concrete triple (5, 5, 5). -/
theorem c3_success_probability_formula_witness :
    success_probability 5 5 5 = spec_success_probability 5 5 5 :=
  c3_success_probability_formula 5 (by decide) 5 (by decide) 5 (by decide)

/-! ### Claim C4 -/

/-- All the monotonicity and range facts of C4, stated for the integer form of
the probability, where they are decidable by enumeration. -/
theorem sp_int_facts :
    (∀ a ∈ Finset.Icc (1:ℤ) 5, ∀ a2 ∈ Finset.Icc (1:ℤ) 5, ∀ b ∈ Finset.Icc (1:ℤ) 5,
      ∀ c ∈ Finset.Icc (1:ℤ) 5, a ≤ a2 → sp_int a b c ≤ sp_int a2 b c) ∧
    (∀ a ∈ Finset.Icc (1:ℤ) 5, ∀ b ∈ Finset.Icc (1:ℤ) 5, ∀ b2 ∈ Finset.Icc (1:ℤ) 5,
      ∀ c ∈ Finset.Icc (1:ℤ) 5, b ≤ b2 → sp_int a b c ≤ sp_int a b2 c) ∧
    (∀ a ∈ Finset.Icc (1:ℤ) 5, ∀ b ∈ Finset.Icc (1:ℤ) 5, ∀ c ∈ Finset.Icc (1:ℤ) 5,
      ∀ c2 ∈ Finset.Icc (1:ℤ) 5, c ≤ c2 → sp_int a b c ≤ sp_int a b c2) ∧
    (∀ a ∈ Finset.Icc (1:ℤ) 5, ∀ b ∈ Finset.Icc (1:ℤ) 5, ∀ c ∈ Finset.Icc (1:ℤ) 5,
      0 ≤ sp_int a b c ∧ sp_int a b c ≤ 100) := by
  decide

/-- C4: over `[1,5]^3` the success probability is monotonically non-decreasing
in each grade separately and always lies in `[0, 100]`. -/
theorem c4_monotone_bounded :
    (∀ icm ∈ Finset.Icc (1:ℤ) 5, ∀ icm2 ∈ Finset.Icc (1:ℤ) 5, ∀ te ∈ Finset.Icc (1:ℤ) 5,
      ∀ ex ∈ Finset.Icc (1:ℤ) 5, icm ≤ icm2 →
      success_probability icm te ex ≤ success_probability icm2 te ex) ∧
    (∀ icm ∈ Finset.Icc (1:ℤ) 5, ∀ te ∈ Finset.Icc (1:ℤ) 5, ∀ te2 ∈ Finset.Icc (1:ℤ) 5,
      ∀ ex ∈ Finset.Icc (1:ℤ) 5, te ≤ te2 →
      success_probability icm te ex ≤ success_probability icm te2 ex) ∧
    (∀ icm ∈ Finset.Icc (1:ℤ) 5, ∀ te ∈ Finset.Icc (1:ℤ) 5, ∀ ex ∈ Finset.Icc (1:ℤ) 5,
      ∀ ex2 ∈ Finset.Icc (1:ℤ) 5, ex ≤ ex2 →
      success_probability icm te ex ≤ success_probability icm te ex2) ∧
    (∀ icm ∈ Finset.Icc (1:ℤ) 5, ∀ te ∈ Finset.Icc (1:ℤ) 5, ∀ ex ∈ Finset.Icc (1:ℤ) 5,
      0 ≤ success_probability icm te ex ∧ success_probability icm te ex ≤ 100) := by
  obtain ⟨m1, m2, m3, bd⟩ := sp_int_facts
  refine ⟨?_, ?_, ?_, ?_⟩
  · intro a ha a2 ha2 b hb c hc hle
    rw [success_probability_eq_int, success_probability_eq_int, Int.cast_le]
    exact m1 a ha a2 ha2 b hb c hc hle
  · intro a ha b hb b2 hb2 c hc hle
    rw [success_probability_eq_int, success_probability_eq_int, Int.cast_le]
    exact m2 a ha b hb b2 hb2 c hc hle
  · intro a ha b hb c hc c2 hc2 hle
    rw [success_probability_eq_int, success_probability_eq_int, Int.cast_le]
    exact m3 a ha b hb c hc c2 hc2 hle
  · intro a ha b hb c hc
    rw [success_probability_eq_int]
    refine ⟨?_, ?_⟩
    · exact_mod_cast (bd a ha b hb c hc).1
    · exact_mod_cast (bd a ha b hb c hc).2

/-- Witness for C4: one concrete monotone step. -/
theorem c4_monotone_bounded_witness :
    success_probability 1 1 1 ≤ success_probability 5 1 1 :=
  c4_monotone_bounded.1 1 (by decide) 5 (by decide) 1 (by decide) 1 (by decide) (by decide)

/-! ### Claim C5 (corrected: the strategy block is keyed by the average score,
not by the quality band) -/

/-- C5 counterexample: (5,5,2) and (2,2,2) have the same quality band
(`Poor`), yet they receive different overall-strategy texts, because
`get_clinical_recommendations` keys the strategy off `avg_score`, not off the
band: (5,5,2) has average 4.0 and gets the priority text. -/
theorem c5_counterexample :
    (get_inference 5 5 2).2.2 = (get_inference 2 2 2).2.2 ∧
    transfer_strategy 5 5 2 ≠ transfer_strategy 2 2 2 ∧
    (get_clinical_recommendations 5 5 2)[1]? ≠ (get_clinical_recommendations 2 2 2)[1]? := by
  refine ⟨by decide, ?_, ?_⟩
  · rw [transfer_strategy_eq, transfer_strategy_eq]
    decide
  · rw [get_clinical_recommendations_eq, get_clinical_recommendations_eq]
    decide

/-- C5 amended: the recommendations operation always emits exactly one overall
strategy block, chosen among three fixed texts, but it is keyed by the
average-score thresholds (`avg ≥ 4` / `avg ≥ 3` / otherwise) rather than by
the quality band; two triples with the same average-score band receive the
same text. -/
theorem c5_strategy_keyed_by_average :
    ∀ icm ∈ Finset.Icc (1:ℤ) 5, ∀ te ∈ Finset.Icc (1:ℤ) 5, ∀ exp ∈ Finset.Icc (1:ℤ) 5,
      List.IsInfix (transfer_strategy icm te exp) (get_clinical_recommendations icm te exp) ∧
      (transfer_strategy icm te exp = priority_block ↔ 4 ≤ avg_score icm te exp) ∧
      (transfer_strategy icm te exp = viable_block ↔
        (3 ≤ avg_score icm te exp ∧ ¬ 4 ≤ avg_score icm te exp)) ∧
      (transfer_strategy icm te exp = limited_block ↔ ¬ 3 ≤ avg_score icm te exp) := by
  simp only [transfer_strategy_eq, get_clinical_recommendations_eq,
    four_le_avg_iff, three_le_avg_iff]
  decide

/-- Witness for C5 (amended) at the concrete triple (5, 5, 5). -/
theorem c5_strategy_keyed_by_average_witness :
    transfer_strategy 5 5 5 = priority_block :=
  ((c5_strategy_keyed_by_average 5 (by decide) 5 (by decide) 5 (by decide)).2.1).mpr
    (by rw [four_le_avg_iff]; decide)

/-! ### Claim C6 -/

/-- The header lines that open the three parameter-concern blocks. -/
def concern_headers : List String :=
  ["**ICM Concerns:**", "**TE Concerns:**", "**Expansion Concerns:**"]

/-- C6: over `[1,5]^3` the recommendations contain a parameter-concern block
for exactly the parameters with value < 3, in the fixed order ICM, TE, EXP;
in particular (4,2,5) produces exactly the TE block and (2,2,2) all three. -/
theorem c6_parameter_concerns :
    (∀ icm ∈ Finset.Icc (1:ℤ) 5, ∀ te ∈ Finset.Icc (1:ℤ) 5, ∀ exp ∈ Finset.Icc (1:ℤ) 5,
      (get_clinical_recommendations icm te exp).filter (fun r => decide (r ∈ concern_headers)) =
        ((if icm < 3 then ["**ICM Concerns:**"] else [])
          ++ (if te < 3 then ["**TE Concerns:**"] else [])
          ++ (if exp < 3 then ["**Expansion Concerns:**"] else []))) ∧
    (get_clinical_recommendations 4 2 5).filter (fun r => decide (r ∈ concern_headers)) =
      ["**TE Concerns:**"] ∧
    (get_clinical_recommendations 2 2 2).filter (fun r => decide (r ∈ concern_headers)) =
      concern_headers := by
  simp only [get_clinical_recommendations_eq]
  decide

/-- Witness for C6 at the concrete triple (2, 3, 4). -/
theorem c6_parameter_concerns_witness :
    (get_clinical_recommendations 2 3 4).filter (fun r => decide (r ∈ concern_headers)) =
      ["**ICM Concerns:**"] :=
  c6_parameter_concerns.1 2 (by decide) 3 (by decide) 4 (by decide)

/-! ### Claim C7 -/

/-- C7: reading the `results` object back from the JSON export recovers the
three grades exactly and an average equal to `(icm+te+exp)/3` to within
`1e-9` (in the model the average is exact, so the tolerance holds trivially;
the Python float average differs from the exact value by far less than
`1e-9` for sums in `[3,15]`). -/
theorem c7_json_round_trip :
    ∀ icm ∈ Finset.Icc (1:ℤ) 5, ∀ te ∈ Finset.Icc (1:ℤ) 5, ∀ exp ∈ Finset.Icc (1:ℤ) 5,
      ∀ (ts : String) (md : List (String × String)),
      ((json_data icm te exp ts md).get? "results").bind (fun r => r.get? "icm")
        = some (.jnum (icm : ℚ)) ∧
      ((json_data icm te exp ts md).get? "results").bind (fun r => r.get? "te")
        = some (.jnum (te : ℚ)) ∧
      ((json_data icm te exp ts md).get? "results").bind (fun r => r.get? "exp")
        = some (.jnum (exp : ℚ)) ∧
      ∃ a : ℚ,
        ((json_data icm te exp ts md).get? "results").bind (fun r => r.get? "average_score")
          = some (.jnum a) ∧
        |a - ((icm : ℚ) + (te : ℚ) + (exp : ℚ)) / 3| ≤ 1 / 1000000000 := by
  intro icm _ te _ exp _ ts md
  refine ⟨rfl, rfl, rfl, avg_score icm te exp, rfl, ?_⟩
  rw [avg_score, sub_self, abs_zero]
  norm_num

/-- Witness for C7 at the concrete triple (2, 3, 4) with concrete metadata. -/
theorem c7_json_round_trip_witness :
    ((json_data 2 3 4 "2024-01-01 00:00:00" [("Patient ID", "PT-1")]).get? "results").bind
      (fun r => r.get? "icm") = some (.jnum ((2:ℤ) : ℚ)) :=
  (c7_json_round_trip 2 (by decide) 3 (by decide) 4 (by decide)
    "2024-01-01 00:00:00" [("Patient ID", "PT-1")]).1

/-! ### Claim C8 (corrected: the JSON export carries no recommendation text) -/

theorem stringLeavesList_map_jstr (md : List (String × String)) :
    JVal.stringLeavesList (md.map (fun p => (p.1, JVal.jstr p.2))) = md.map (fun p => p.2) := by
  induction md with
  | nil => rfl
  | cons p rest ih => simp [JVal.stringLeavesList, JVal.stringLeaves, ih]

theorem json_data_stringLeaves (icm te exp : ℤ) (ts : String)
    (md : List (String × String)) :
    (json_data icm te exp ts md).stringLeaves =
      ts :: (md.map (fun p => p.2)
        ++ [(get_inference icm te exp).2.2,
            (calculate_success_metrics icm te exp).success_probability,
            (calculate_success_metrics icm te exp).quality_score,
            (calculate_success_metrics icm te exp).development_stage,
            (calculate_success_metrics icm te exp).transfer_priority]) := by
  simp [json_data, JVal.stringLeaves, JVal.stringLeavesList, stringLeavesList_map_jstr]

/-- No recommendation statement coincides with any of the fixed string values
stored in the JSON export (quality level and the four metric strings). -/
theorem rec_disjoint_fixed_leaves :
    ∀ icm ∈ Finset.Icc (1:ℤ) 5, ∀ te ∈ Finset.Icc (1:ℤ) 5, ∀ exp ∈ Finset.Icc (1:ℤ) 5,
      ∀ r ∈ get_clinical_recommendations icm te exp,
      r ∉ [(get_inference icm te exp).2.2,
           (calculate_success_metrics icm te exp).success_probability,
           (calculate_success_metrics icm te exp).quality_score,
           (calculate_success_metrics icm te exp).development_stage,
           (calculate_success_metrics icm te exp).transfer_priority] := by
  simp only [get_clinical_recommendations_eq, calculate_success_metrics_eq]
  decide

theorem follow_up_mem_recommendations (icm te exp : ℤ) :
    "- Schedule detailed consultation with reproductive endocrinologist"
      ∈ get_clinical_recommendations icm te exp := by
  simp [get_clinical_recommendations, follow_up_block]

theorem sched_mem_pdf_story (icm te exp : ℤ) (md : List (String × String)) (ts rid : String) :
    "- Schedule detailed consultation with reproductive endocrinologist"
      ∈ pdf_story icm te exp md ts rid := by
  have h1 : "- Schedule detailed consultation with reproductive endocrinologist"
      ∈ (get_clinical_recommendations icm te exp).map pdfRecPara :=
    List.mem_map.mpr
      ⟨"- Schedule detailed consultation with reproductive endocrinologist",
        follow_up_mem_recommendations icm te exp, by decide⟩
  simp only [pdf_story, List.mem_cons, List.mem_append]
  tauto

/-- C8 counterexample: at the triple (3,3,3) with empty metadata, the set of
recommendation statements extractable from the JSON export (none) differs from
the set extractable from the PDF export (which contains the recommendation
section). -/
theorem c8_counterexample :
    json_rec_statements 3 3 3 "2024-01-01 00:00:00" [] ≠
      pdf_rec_statements 3 3 3 [] "2024-01-01 00:00:00" "20240101-000000" := by
  simp only [json_rec_statements, pdf_rec_statements, extracted_rec_statements, json_data,
    pdf_story, get_clinical_recommendations_eq, calculate_success_metrics_eq]
  decide

/-- C8 amended: the report formats are not content-invariant for
recommendations — the JSON export contains no recommendation statement at all
(for any metadata whose strings are not themselves recommendation lines),
while the PDF export always contains recommendation statements, so the two
extractable sets always differ (empty versus non-empty). -/
theorem c8_json_has_no_recommendations :
    ∀ icm ∈ Finset.Icc (1:ℤ) 5, ∀ te ∈ Finset.Icc (1:ℤ) 5, ∀ exp ∈ Finset.Icc (1:ℤ) 5,
      ∀ (ts rid : String) (md : List (String × String)),
      ts ∉ get_clinical_recommendations icm te exp →
      (∀ p ∈ md, p.2 ∉ get_clinical_recommendations icm te exp) →
      json_rec_statements icm te exp ts md = [] ∧
      pdf_rec_statements icm te exp md ts rid ≠ [] := by
  intro icm hicm te hte exp hexp ts rid md hts hmd
  constructor
  · rw [json_rec_statements, extracted_rec_statements]
    rw [List.filter_eq_nil_iff]
    intro r hr
    simp only [decide_eq_true_eq]
    rw [json_data_stringLeaves]
    intro hmem
    rcases List.mem_cons.mp hmem with h1 | h2
    · exact hts (h1 ▸ hr)
    rcases List.mem_append.mp h2 with h3 | h4
    · obtain ⟨p, hp, hpe⟩ := List.mem_map.mp h3
      exact hmd p hp (hpe ▸ hr)
    · exact rec_disjoint_fixed_leaves icm hicm te hte exp hexp r hr h4
  · apply List.ne_nil_of_mem
      (a := "- Schedule detailed consultation with reproductive endocrinologist")
    rw [pdf_rec_statements, extracted_rec_statements]
    apply List.mem_filter.mpr
    refine ⟨follow_up_mem_recommendations icm te exp, ?_⟩
    simp only [decide_eq_true_eq]
    exact sched_mem_pdf_story icm te exp md ts rid

/-- Witness for C8 (amended) at a concrete triple with concrete metadata. -/
theorem c8_json_has_no_recommendations_witness :
    json_rec_statements 2 3 4 "2024-01-01 00:00:00" [("Patient ID", "PT-1")] = [] :=
  (c8_json_has_no_recommendations 2 (by decide) 3 (by decide) 4 (by decide)
    "2024-01-01 00:00:00" "RID-1" [("Patient ID", "PT-1")]
    (by rw [get_clinical_recommendations_eq]; decide)
    (by intro p hp; fin_cases hp; rw [get_clinical_recommendations_eq]; decide)).1

/-! ### Claim C9 (corrected: the PDF report depends on the clock) -/

theorem str_append_left_cancel (s t u : String) (h : s ++ t = s ++ u) : t = u := by
  have h2 : (s ++ t).data = (s ++ u).data := congrArg String.data h
  simp only [String.data_append] at h2
  exact congrArg String.mk (List.append_cancel_left h2)

/-- C9 counterexample: the PDF report is not independent of external state —
two generations of the same triple and metadata at different clock readings
produce different output. -/
theorem c9_counterexample :
    pdf_story 3 3 3 [] "October 01, 2024 at 10:00 AM" "20241001-100000" ≠
      pdf_story 3 3 3 [] "October 01, 2024 at 10:01 AM" "20241001-100100" := by
  decide

/-- C9 amended: the pure grading operations are functions of the triple alone,
but PDF report formatting additionally reads the clock (report timestamp and
report ID): for a fixed triple and metadata, any two calls that observe
different timestamp strings produce different PDF content, and the output is
byte-identical only when the clock readings coincide. -/
theorem c9_pdf_depends_on_clock (icm te exp : ℤ) (md : List (String × String))
    (ts ts' rid rid' : String) (h : ts ≠ ts') :
    pdf_story icm te exp md ts rid ≠ pdf_story icm te exp md ts' rid' := by
  intro heq
  apply h
  simp only [pdf_story, List.cons.injEq] at heq
  exact str_append_left_cancel _ _ _ heq.2.2.1

/-- Witness for C9 (amended) at concrete inputs. -/
theorem c9_pdf_depends_on_clock_witness :
    pdf_story 1 1 1 [] "T1" "R" ≠ pdf_story 1 1 1 [] "T2" "R" :=
  c9_pdf_depends_on_clock 1 1 1 [] "T1" "T2" "R" "R" (by decide)

/-! ### Claim C10 -/

/-- C10: the grading operations perform no range validation and are total over
all integers — out-of-range grades flow through the same threshold
comparisons: grades ≥ 6 satisfy the ≥ 4 branches (at (6,1,1) the ICM note is
the positive one), a grade of 0 falls into the negative branch, and
`calculate_success_metrics` returns normally (at (0,0,0) with probability
0.0%, at (6,6,6) capped at 95). -/
theorem c10_total_no_validation :
    (∀ icm te exp : ℤ, 6 ≤ icm → 6 ≤ te → 6 ≤ exp →
      (get_inference icm te exp).2.2 = "Excellent") ∧
    (∀ icm te exp : ℤ, icm ≤ 0 → te ≤ 0 → exp ≤ 0 →
      (get_inference icm te exp).2.2 = "Poor") ∧
    (get_inference 6 1 1).2.1.head? =
      some "🟢 **ICM:** Good inner cell mass – likely healthy embryoblast." ∧
    (get_inference 0 3 3).2.1.head? =
      some "🔴 **ICM:** Poor ICM – lower likelihood of successful implantation." ∧
    success_probability 6 6 6 = 95 ∧
    calculate_success_metrics 0 0 0 =
      { success_probability := "0.0%", quality_score := "0.00/5.00",
        development_stage := "Early Development", transfer_priority := "Low" } := by
  refine ⟨?_, ?_, by decide, by decide, ?_, ?_⟩
  · intro icm te exp h1 h2 h3
    simp only [get_inference]
    rw [if_pos ⟨by omega, by omega, by omega⟩]
  · intro icm te exp h1 h2 h3
    simp only [get_inference]
    rw [if_neg (by omega), if_neg (by omega)]
  · rw [success_probability_eq_int]
    decide
  · rw [calculate_success_metrics_eq]
    decide

/-- Witness for C10 at the concrete out-of-range triple (6, 6, 6). -/
theorem c10_total_no_validation_witness :
    (get_inference 6 6 6).2.2 = "Excellent" :=
  c10_total_no_validation.1 6 6 6 (by decide) (by decide) (by decide)

end Blastocyst
